import Mathlib

/-!
# better-restic-client: a verified model of the command builder,
# size parser, outcome classifier and web handlers

This file is a shallow embedding of the Rust sources `src/main.rs` and
`src/web.rs` of the `better-restic-client` repository.  Paths (Rust
`PathBuf`) and captured process streams are modelled as `String`;
Rust `u64` arithmetic is modelled as `Nat` with an explicit reduction
modulo `2 ^ 64` where the code multiplies; fallible Rust functions
returning `anyhow::Result` are modelled with `Except String`.
-/

/-- `backup` section of `config.yaml` (struct `BackupConfig`, main.rs). -/
structure BackupConfig where
  frequency : String
  time : String
  directories : List String
  exclude : List String
  deriving DecidableEq, Repr

/-- `logging` section of `config.yaml` (struct `LoggingConfig`, main.rs). -/
structure LoggingConfig where
  directory : String
  max_size : String
  deriving DecidableEq, Repr

/-- `restic` section of `config.yaml` (struct `ResticConfig`, main.rs). -/
structure ResticConfig where
  repository : String
  ssh_command : Option String
  password_command : Option String
  password : Option String
  deriving DecidableEq, Repr

/-- Whole configuration file (struct `Config`, main.rs). -/
structure Config where
  backup : BackupConfig
  logging : LoggingConfig
  restic : ResticConfig
  deriving DecidableEq, Repr

/-- A built subprocess invocation: the data accumulated into a
`std::process::Command` — program name, ordered argument list, and the
environment overrides in insertion order. -/
structure ResticCommand where
  program : String
  args : List String
  env : List (String × String)
  deriving DecidableEq, Repr

/-- The argument/environment construction of `execute_restic_backup`
(main.rs lines 162-210), step by step in source order:
`backup`; `--repo <repository>`; `--password-command <cmd>` if set, else
the `RESTIC_PASSWORD` environment variable if an inline password is set;
`RESTIC_SSH_COMMAND` environment variable if set; `--verbose` if verbose;
each backup directory; `--exclude <path>` per exclude; `--dry-run` if
dry-run. -/
def buildBackupCommand (backup_config : BackupConfig) (restic_config : ResticConfig)
    (dry_run : Bool) (verbose : Bool) : ResticCommand :=
  let args0 : List String := ["backup"]
  let args1 := args0 ++ ["--repo", restic_config.repository]
  let credentials : List String × List (String × String) :=
    match restic_config.password_command with
    | some password_cmd => (["--password-command", password_cmd], [])
    | none =>
      match restic_config.password with
      | some password => ([], [("RESTIC_PASSWORD", password)])
      | none => ([], [])
  let args2 := args1 ++ credentials.1
  let env1 := credentials.2
  let env2 :=
    match restic_config.ssh_command with
    | some ssh_cmd => env1 ++ [("RESTIC_SSH_COMMAND", ssh_cmd)]
    | none => env1
  let args3 := if verbose then args2 ++ ["--verbose"] else args2
  let args4 := backup_config.directories.foldl (fun acc dir => acc ++ [dir]) args3
  let args5 := backup_config.exclude.foldl (fun acc exclude_path => acc ++ ["--exclude", exclude_path]) args4
  let args6 := if dry_run then args5 ++ ["--dry-run"] else args5
  { program := "restic", args := args6, env := env2 }

/-- The argument/environment construction of `get_snapshots`
(web.rs lines 203-218): `snapshots`; `--repo <repository>`; `--json`;
then the same credential and SSH handling as the backup path. -/
def buildSnapshotsCommand (restic_config : ResticConfig) : ResticCommand :=
  let args0 : List String := ["snapshots", "--repo", restic_config.repository, "--json"]
  let credentials : List String × List (String × String) :=
    match restic_config.password_command with
    | some password_cmd => (["--password-command", password_cmd], [])
    | none =>
      match restic_config.password with
      | some password => ([], [("RESTIC_PASSWORD", password)])
      | none => ([], [])
  let env2 :=
    match restic_config.ssh_command with
    | some ssh_cmd => credentials.2 ++ [("RESTIC_SSH_COMMAND", ssh_cmd)]
    | none => credentials.2
  { program := "restic", args := args0 ++ credentials.1, env := env2 }

example :
    buildBackupCommand ⟨"daily", "02:00", ["/home/u"], ["/home/u/t"]⟩
      ⟨"/repo", none, none, some "pw"⟩ true true =
    { program := "restic"
      args := ["backup", "--repo", "/repo", "--verbose", "/home/u", "--exclude", "/home/u/t", "--dry-run"]
      env := [("RESTIC_PASSWORD", "pw")] } := rfl

example :
    buildSnapshotsCommand ⟨"/repo", some "ssh", some "cat pw", some "pw"⟩ =
    { program := "restic"
      args := ["snapshots", "--repo", "/repo", "--json", "--password-command", "cat pw"]
      env := [("RESTIC_SSH_COMMAND", "ssh")] } := rfl

/-- Rendering of one Debug-quoted string, as Rust's `Debug` for
`OsStr`/`str` renders a string containing no character that needs
escaping: the text between two quote characters. -/
def rustDebugQuote (s : String) : String := "\"" ++ s ++ "\""

/-- Model of `format!("{:?}", cmd)` for a `std::process::Command` on a
Unix target (Rust 1.57 and later, as used by `execute_restic_backup`,
main.rs line 213): every environment override is printed first as
`KEY="value" `, then the quoted program, then each quoted argument
separated by spaces. -/
def commandDebugString (c : ResticCommand) : String :=
  String.join (c.env.map (fun kv => kv.1 ++ "=" ++ rustDebugQuote kv.2 ++ " ")) ++
    rustDebugQuote c.program ++
    String.join (c.args.map (fun a => " " ++ rustDebugQuote a))

/-- The log line `info!("Restic command: {}", cmd_string)` of
main.rs line 214; the same `cmd_string` is printed as
`Command executed: {}` on failure (main.rs line 392). -/
def resticCommandLogLine (c : ResticCommand) : String :=
  "Restic command: " ++ commandDebugString c

/-- Whitespace as trimmed by Rust `str::trim` (restricted to the ASCII
whitespace characters, the only ones occurring here): space (32),
tab (9), newline (10), carriage return (13). -/
def isWsChar (c : Char) : Bool :=
  c.toNat = 32 || c.toNat = 9 || c.toNat = 10 || c.toNat = 13

/-- Rust `str::trim`: drop whitespace from both ends of the character list. -/
def trimChars (cs : List Char) : List Char :=
  ((cs.dropWhile isWsChar).reverse.dropWhile isWsChar).reverse

/-- Rust `str::to_uppercase`, restricted to ASCII (on `a`-`z` it
subtracts 32 from the code point; elsewhere identity). -/
def asciiUpper (c : Char) : Char :=
  if 97 ≤ c.toNat ∧ c.toNat ≤ 122 then Char.ofNat (c.toNat - 32) else c

/-- Rust `str::to_lowercase`, restricted to ASCII (on `A`-`Z` it adds
32 to the code point; elsewhere identity). -/
def asciiLower (c : Char) : Char :=
  if 65 ≤ c.toNat ∧ c.toNat ≤ 90 then Char.ofNat (c.toNat + 32) else c

/-- Uppercased copy of a string (model of Rust `str::to_uppercase`). -/
def upperString (s : String) : String := String.mk (s.data.map asciiUpper)

/-- Lowercased copy of a string (model of Rust `str::to_lowercase`). -/
def lowerString (s : String) : String := String.mk (s.data.map asciiLower)

/-- ASCII decimal digit. -/
def isDigitChar (c : Char) : Bool := 48 ≤ c.toNat && c.toNat ≤ 57

/-- Value of a list of decimal digits, most significant first. -/
def digitsToNat (cs : List Char) : Nat :=
  cs.foldl (fun acc c => acc * 10 + (c.toNat - 48)) 0

/-- Rust `u64::MAX + 1`. -/
def U64SIZE : Nat := 2 ^ 64

/-- One wrapping `u64` multiplication. -/
def u64mul (a b : Nat) : Nat := a * b % U64SIZE

/-- Rust `str::parse::<u64>`: an optional leading `+` sign, then at
least one ASCII digit; values beyond `u64::MAX` are a `PosOverflow`
parse error.  (`number.parse()?`, main.rs line 147.) -/
def parseU64 (cs : List Char) : Except String Nat :=
  let body := match cs with
    | c :: rest => if c = '+' then rest else c :: rest
    | [] => []
  if body.isEmpty then .error "cannot parse integer from empty string"
  else if body.all isDigitChar then
    if digitsToNat body < U64SIZE then .ok (digitsToNat body)
    else .error "number too large to fit in target type"
  else .error "invalid digit found in string"

/-- Branching part of `parse_size` (main.rs lines 128-155), applied to
the already trimmed-and-uppercased input: match the suffix `MB`, then
`KB`, then `GB`; re-trim the number part and parse it as `u64`;
multiply by 1024 once, twice or three times in wrapping `u64`
arithmetic. -/
def parseSizeCore (size_str : List Char) : Except String Nat :=
  if ['M', 'B'].isSuffixOf size_str then
    (parseU64 (trimChars (size_str.take (size_str.length - 2)))).map
      (fun number => u64mul (u64mul number 1024) 1024)
  else if ['K', 'B'].isSuffixOf size_str then
    (parseU64 (trimChars (size_str.take (size_str.length - 2)))).map
      (fun number => u64mul number 1024)
  else if ['G', 'B'].isSuffixOf size_str then
    (parseU64 (trimChars (size_str.take (size_str.length - 2)))).map
      (fun number => u64mul (u64mul (u64mul number 1024) 1024) 1024)
  else .error "Invalid size format. Use MB, KB, or GB"

/-- `parse_size` of main.rs lines 126-156 over the character list of
its input: `size_str.trim().to_uppercase()` (line 127), then the
suffix matching of `parseSizeCore`. -/
def parseSizeChars (cs : List Char) : Except String Nat :=
  parseSizeCore ((trimChars cs).map asciiUpper)

/-- `parse_size` on a string. -/
def parse_size (s : String) : Except String Nat := parseSizeChars s.data

example : parse_size "10MB" = .ok 10485760 := rfl
example : parse_size "5KB" = .ok 5120 := rfl
example : parse_size "1GB" = .ok 1073741824 := rfl
example : parse_size "10mb" = .ok 10485760 := rfl
example : parse_size " 10 MB " = .ok 10485760 := rfl
example : parse_size "10XB" = .error "Invalid size format. Use MB, KB, or GB" := rfl
example : parse_size "18446744073709551616KB" = .error "number too large to fit in target type" := rfl
example : parse_size "18446744073709551615KB" = .ok 18446744073709550592 := rfl

/-- Substring test on character lists (Rust `str::contains` with a
string pattern): the pattern occurs at some position. -/
def listContainsSub (hay needle : List Char) : Bool :=
  needle.isPrefixOf hay ||
    match hay with
    | [] => false
    | _ :: t => listContainsSub t needle

/-- Substring test on strings. -/
def strContainsSub (hay needle : String) : Bool := listContainsSub hay.data needle.data

/-- `is_repo_error` of `execute_restic_backup` (main.rs lines 288-291
and 395-398): lowercase the captured stderr and look for any of the
three repository phrases. -/
def is_repo_error (stderr : String) : Bool :=
  let stderr_lower := lowerString stderr
  strContainsSub stderr_lower "unable to open config file" ||
    strContainsSub stderr_lower "is there a repository" ||
    strContainsSub stderr_lower "repository not found"

/-- The password check of `execute_restic_backup` (main.rs lines 322
and 429): lowercase stderr contains "empty password" or "password". -/
def is_password_error (stderr : String) : Bool :=
  let stderr_lower := lowerString stderr
  strContainsSub stderr_lower "empty password" || strContainsSub stderr_lower "password"

/-- The outcome categories of one classified invocation (conceptual
`OutcomeCategory` of the spec, realized by the branch structure of
`execute_restic_backup`; `SpawnFailure` is the earlier
`cmd.output()` error branch and is not produced by this classifier). -/
inductive Outcome where
  | success
  | dryRunSuccess
  | repositoryUninitialized
  | passwordError
  | genericFailure
  deriving DecidableEq, Repr

/-- Classification of a finished subprocess by `execute_restic_backup`
(identical logic in the dry-run branch, main.rs lines 261-341, and the
backup branch, lines 366-448): success splits on `dry_run`; failure is
attributed to the repository phrases first, then to the password
phrases, then reported generically. -/
def classify_result (statusSuccess : Bool) (dry_run : Bool) (stderr : String) : Outcome :=
  if statusSuccess then
    if dry_run then .dryRunSuccess else .success
  else if is_repo_error stderr then .repositoryUninitialized
  else if is_password_error stderr then .passwordError
  else .genericFailure

/-- The two remediation hints `execute_restic_backup` prints on a
failing exit status; both may fire for the same stderr (main.rs lines
306-319 repository suggestion, 322-328 password hint, and the same
pair again at 413-426 and 429-435). -/
structure FailureHints where
  repoSuggestion : Bool
  passwordHint : Bool
  deriving DecidableEq, Repr

/-- Hints emitted for a failing exit status. -/
def failure_hints (stderr : String) : FailureHints :=
  { repoSuggestion := is_repo_error stderr, passwordHint := is_password_error stderr }

/-- Shape of the JSON value produced by `get_config` (web.rs lines
57-77): every non-credential field verbatim, and for `ssh_command`,
`password_command` and `password` only a presence boolean. -/
structure ConfigResponse where
  frequency : String
  time : String
  directories : List String
  exclude : List String
  logging_directory : String
  logging_max_size : String
  repository : String
  has_ssh_command : Bool
  has_password_command : Bool
  has_password : Bool
  deriving DecidableEq, Repr

/-- `get_config` handler (web.rs lines 57-77). -/
def get_config (config : Config) : ConfigResponse :=
  { frequency := config.backup.frequency
    time := config.backup.time
    directories := config.backup.directories
    exclude := config.backup.exclude
    logging_directory := config.logging.directory
    logging_max_size := config.logging.max_size
    repository := config.restic.repository
    has_ssh_command := config.restic.ssh_command.isSome
    has_password_command := config.restic.password_command.isSome
    has_password := config.restic.password.isSome }

/-- The server state touched by `update_config_yaml`: the in-memory
configuration behind the `RwLock` and the content of the config file. -/
structure ServerState where
  memory : Config
  file : String
  deriving DecidableEq, Repr

/-- Observable side effects of one `update_config_yaml` call, in the
order the handler performs them. -/
inductive UpdateEffect where
  | fileWrite (content : String)
  | memorySwap (c : Config)
  deriving DecidableEq, Repr

/-- `update_config_yaml` handler (web.rs lines 84-106), parameterized
by the external YAML parser (`serde_yaml::from_str`, out of scope):
parse the payload first; on failure return 400 BAD_REQUEST touching
nothing; on success write the file, then swap the in-memory value, and
return 200.  The effect trace records the order of the two writes. -/
def update_config_yaml (parseYaml : String → Option Config) (st : ServerState)
    (yaml : String) : ServerState × Nat × List UpdateEffect :=
  match parseYaml yaml with
  | none => (st, 400, [])
  | some new_config =>
    ({ memory := new_config, file := yaml }, 200,
      [.fileWrite yaml, .memorySwap new_config])

/-- Body of `POST /api/backup/trigger` (struct `BackupRequest`, web.rs). -/
structure BackupRequest where
  dry_run : Option Bool
  deriving DecidableEq, Repr

/-- `trigger_backup` handler (web.rs lines 108-137): read `dry_run`
from the payload with default `false`, snapshot the configuration, and
invoke the builder/executor with `verbose` hard-coded to `true`
(web.rs line 134).  The model returns the command the spawned task
builds. -/
def trigger_backup (config : Config) (payload : BackupRequest) : ResticCommand :=
  let dry_run := payload.dry_run.getD false
  buildBackupCommand config.backup config.restic dry_run true

example : classify_result false false "Fatal: repository not found" = .repositoryUninitialized := rfl
example : classify_result false true "FATAL: wrong password or no key found" = .passwordError := rfl
example : classify_result false false "some other error" = .genericFailure := rfl
example : classify_result true true "" = .dryRunSuccess := rfl
example : failure_hints "Is there a repository at this PASSWORD location?" = ⟨true, true⟩ := rfl

/-! ## Helper lemmas -/

theorem char_toNat_ofNat_valid (n : Nat) (h : n.isValidChar) : (Char.ofNat n).toNat = n := by
  rw [Char.ofNat, dif_pos h]
  rfl

theorem asciiUpper_toNat_of_lower {c : Char} (h1 : 97 ≤ c.toNat) (h2 : c.toNat ≤ 122) :
    (asciiUpper c).toNat = c.toNat - 32 := by
  have hv : (c.toNat - 32).isValidChar := Or.inl (by omega)
  rw [asciiUpper, if_pos ⟨h1, h2⟩, char_toNat_ofNat_valid _ hv]

theorem asciiUpper_eq_self {c : Char} (h : ¬(97 ≤ c.toNat ∧ c.toNat ≤ 122)) :
    asciiUpper c = c := by
  rw [asciiUpper, if_neg h]

theorem asciiUpper_idem (c : Char) : asciiUpper (asciiUpper c) = asciiUpper c := by
  by_cases h : 97 ≤ c.toNat ∧ c.toNat ≤ 122
  · have ht := asciiUpper_toNat_of_lower h.1 h.2
    exact asciiUpper_eq_self (by omega)
  · rw [asciiUpper_eq_self h, asciiUpper_eq_self h]

theorem isWsChar_false_of_ge {c : Char} (h : 48 ≤ c.toNat) : isWsChar c = false := by
  simp only [isWsChar, Bool.or_eq_false_iff, decide_eq_false_iff_not]
  omega

theorem isWsChar_asciiUpper (c : Char) : isWsChar (asciiUpper c) = isWsChar c := by
  by_cases h : 97 ≤ c.toNat ∧ c.toNat ≤ 122
  · have ht := asciiUpper_toNat_of_lower h.1 h.2
    rw [isWsChar_false_of_ge (by omega), isWsChar_false_of_ge (by omega)]
  · rw [asciiUpper_eq_self h]

theorem dropWhile_eq_self_of_false {p : Char → Bool} {l : List Char}
    (h : ∀ c ∈ l, p c = false) : l.dropWhile p = l := by
  cases l with
  | nil => rfl
  | cons c t => simp [List.dropWhile_cons, h c (by simp)]

theorem trimChars_eq_self {l : List Char} (h : ∀ c ∈ l, isWsChar c = false) :
    trimChars l = l := by
  unfold trimChars
  rw [dropWhile_eq_self_of_false h,
    dropWhile_eq_self_of_false (fun c hc => h c (List.mem_reverse.mp hc)),
    List.reverse_reverse]

theorem trimChars_map_asciiUpper (l : List Char) :
    trimChars (l.map asciiUpper) = (trimChars l).map asciiUpper := by
  have hpf : (isWsChar ∘ asciiUpper) = isWsChar := funext isWsChar_asciiUpper
  unfold trimChars
  rw [List.dropWhile_map, hpf, ← List.map_reverse, List.dropWhile_map, hpf, ← List.map_reverse]

theorem map_asciiUpper_eq_self {l : List Char} (h : ∀ c ∈ l, asciiUpper c = c) :
    l.map asciiUpper = l := by
  rw [List.map_congr_left h, List.map_id']

theorem map_asciiUpper_idem (l : List Char) :
    (l.map asciiUpper).map asciiUpper = l.map asciiUpper := by
  rw [List.map_map]
  exact List.map_congr_left (fun c _ => asciiUpper_idem c)

theorem isDigitChar_bounds {c : Char} (h : isDigitChar c = true) :
    48 ≤ c.toNat ∧ c.toNat ≤ 57 := by
  simpa [isDigitChar, Bool.and_eq_true, decide_eq_true_eq] using h

theorem all_digits_not_ws {ds : List Char} (h : ds.all isDigitChar = true) :
    ∀ c ∈ ds, isWsChar c = false := fun c hc =>
  isWsChar_false_of_ge (isDigitChar_bounds (List.all_eq_true.mp h c hc)).1

theorem all_digits_upper_fix {ds : List Char} (h : ds.all isDigitChar = true) :
    ∀ c ∈ ds, asciiUpper c = c := fun c hc => by
  have hb := isDigitChar_bounds (List.all_eq_true.mp h c hc)
  exact asciiUpper_eq_self (by omega)

theorem normalize_digits_unit (ds us : List Char) (hd : ds.all isDigitChar = true)
    (hus : ∀ c ∈ us, isWsChar c = false ∧ asciiUpper c = c) :
    (trimChars (ds ++ us)).map asciiUpper = ds ++ us := by
  have hws : ∀ c ∈ ds ++ us, isWsChar c = false := by
    intro c hc
    rcases List.mem_append.mp hc with hc | hc
    · exact all_digits_not_ws hd c hc
    · exact (hus c hc).1
  have hup : ∀ c ∈ ds ++ us, asciiUpper c = c := by
    intro c hc
    rcases List.mem_append.mp hc with hc | hc
    · exact all_digits_upper_fix hd c hc
    · exact (hus c hc).2
  rw [trimChars_eq_self hws, map_asciiUpper_eq_self hup]

theorem parseU64_digits {ds : List Char} (h1 : ds ≠ []) (h2 : ds.all isDigitChar = true)
    (h3 : digitsToNat ds < U64SIZE) : parseU64 ds = .ok (digitsToNat ds) := by
  cases ds with
  | nil => exact absurd rfl h1
  | cons c t =>
    have hc : isDigitChar c = true := by
      have := List.all_eq_true.mp h2 c (by simp)
      exact this
    have hplus : ¬(c = '+') := by
      intro he
      subst he
      revert hc
      decide
    simp only [parseU64]
    rw [if_neg hplus]
    simp [h2, h3]

theorem foldl_push_dir (l acc : List String) :
    l.foldl (fun a d => a ++ [d]) acc = acc ++ l := by
  induction l generalizing acc with
  | nil => simp
  | cons x t ih => simp [ih]

theorem foldl_push_exclude (l acc : List String) :
    l.foldl (fun a e => a ++ ["--exclude", e]) acc =
      acc ++ l.flatMap (fun e => ["--exclude", e]) := by
  induction l generalizing acc with
  | nil => simp
  | cons x t ih => simp [ih]

theorem buildBackupCommand_args (backup_config : BackupConfig) (restic_config : ResticConfig)
    (dry_run verbose : Bool) :
    (buildBackupCommand backup_config restic_config dry_run verbose).args =
      ["backup", "--repo", restic_config.repository]
        ++ (match restic_config.password_command with
            | some password_cmd => ["--password-command", password_cmd]
            | none => [])
        ++ (if verbose then ["--verbose"] else [])
        ++ backup_config.directories
        ++ backup_config.exclude.flatMap (fun e => ["--exclude", e])
        ++ (if dry_run then ["--dry-run"] else []) := by
  obtain ⟨repo, ssh, pc, pw⟩ := restic_config
  cases pc <;> cases pw <;> cases verbose <;> cases dry_run <;>
    simp [buildBackupCommand, foldl_push_dir, foldl_push_exclude]

theorem buildBackupCommand_env (backup_config : BackupConfig) (restic_config : ResticConfig)
    (dry_run verbose : Bool) :
    (buildBackupCommand backup_config restic_config dry_run verbose).env =
      (match restic_config.password_command, restic_config.password with
        | some _, _ => []
        | none, some password => [("RESTIC_PASSWORD", password)]
        | none, none => [])
      ++ (match restic_config.ssh_command with
          | some ssh_cmd => [("RESTIC_SSH_COMMAND", ssh_cmd)]
          | none => []) := by
  obtain ⟨repo, ssh, pc, pw⟩ := restic_config
  cases pc <;> cases pw <;> cases ssh <;> simp [buildBackupCommand]

theorem buildSnapshotsCommand_env (restic_config : ResticConfig) :
    (buildSnapshotsCommand restic_config).env =
      (match restic_config.password_command, restic_config.password with
        | some _, _ => []
        | none, some password => [("RESTIC_PASSWORD", password)]
        | none, none => [])
      ++ (match restic_config.ssh_command with
          | some ssh_cmd => [("RESTIC_SSH_COMMAND", ssh_cmd)]
          | none => []) := by
  obtain ⟨repo, ssh, pc, pw⟩ := restic_config
  cases pc <;> cases pw <;> cases ssh <;> simp [buildSnapshotsCommand]

theorem units_fixed_KB : ∀ c ∈ ['K', 'B'], isWsChar c = false ∧ asciiUpper c = c := by decide

theorem units_fixed_MB : ∀ c ∈ ['M', 'B'], isWsChar c = false ∧ asciiUpper c = c := by decide

theorem units_fixed_GB : ∀ c ∈ ['G', 'B'], isWsChar c = false ∧ asciiUpper c = c := by decide

theorem parseSizeChars_digits_KB (ds : List Char) (h1 : ds ≠ [])
    (h2 : ds.all isDigitChar = true) (h3 : digitsToNat ds < U64SIZE) :
    parseSizeChars (ds ++ ['K', 'B']) = .ok (u64mul (digitsToNat ds) 1024) := by
  have hnorm := normalize_digits_unit ds ['K', 'B'] h2 units_fixed_KB
  have hMB : ['M', 'B'].isSuffixOf (ds ++ ['K', 'B']) = false := by
    simp [List.isSuffixOf, List.isPrefixOf, List.reverse_append]
  have hKB : ['K', 'B'].isSuffixOf (ds ++ ['K', 'B']) = true := by
    simp [List.isSuffixOf, List.isPrefixOf, List.reverse_append]
  have htake : (ds ++ ['K', 'B']).take ((ds ++ ['K', 'B']).length - 2) = ds := by simp
  rw [parseSizeChars, hnorm, parseSizeCore, hMB, hKB]
  simp only [Bool.false_eq_true, if_false, if_true]
  rw [htake, trimChars_eq_self (all_digits_not_ws h2), parseU64_digits h1 h2 h3]
  rfl

theorem parseSizeChars_digits_MB (ds : List Char) (h1 : ds ≠ [])
    (h2 : ds.all isDigitChar = true) (h3 : digitsToNat ds < U64SIZE) :
    parseSizeChars (ds ++ ['M', 'B']) = .ok (u64mul (u64mul (digitsToNat ds) 1024) 1024) := by
  have hnorm := normalize_digits_unit ds ['M', 'B'] h2 units_fixed_MB
  have hMB : ['M', 'B'].isSuffixOf (ds ++ ['M', 'B']) = true := by
    simp [List.isSuffixOf, List.isPrefixOf, List.reverse_append]
  have htake : (ds ++ ['M', 'B']).take ((ds ++ ['M', 'B']).length - 2) = ds := by simp
  rw [parseSizeChars, hnorm, parseSizeCore, hMB]
  simp only [if_true]
  rw [htake, trimChars_eq_self (all_digits_not_ws h2), parseU64_digits h1 h2 h3]
  rfl

theorem parseSizeChars_digits_GB (ds : List Char) (h1 : ds ≠ [])
    (h2 : ds.all isDigitChar = true) (h3 : digitsToNat ds < U64SIZE) :
    parseSizeChars (ds ++ ['G', 'B']) =
      .ok (u64mul (u64mul (u64mul (digitsToNat ds) 1024) 1024) 1024) := by
  have hnorm := normalize_digits_unit ds ['G', 'B'] h2 units_fixed_GB
  have hMB : ['M', 'B'].isSuffixOf (ds ++ ['G', 'B']) = false := by
    simp [List.isSuffixOf, List.isPrefixOf, List.reverse_append]
  have hKB : ['K', 'B'].isSuffixOf (ds ++ ['G', 'B']) = false := by
    simp [List.isSuffixOf, List.isPrefixOf, List.reverse_append]
  have hGB : ['G', 'B'].isSuffixOf (ds ++ ['G', 'B']) = true := by
    simp [List.isSuffixOf, List.isPrefixOf, List.reverse_append]
  have htake : (ds ++ ['G', 'B']).take ((ds ++ ['G', 'B']).length - 2) = ds := by simp
  rw [parseSizeChars, hnorm, parseSizeCore, hMB, hKB, hGB]
  simp only [Bool.false_eq_true, if_false, if_true]
  rw [htake, trimChars_eq_self (all_digits_not_ws h2), parseU64_digits h1 h2 h3]
  rfl

/-! ## Claim theorems -/

/-- Claim C1: the inline password never appears in the built argument
list for any configuration (the argument list does not depend on the
`password` field at all), and when it is used — `password_command`
absent, `password` present — it reaches the invocation only through
the environment map, under the key `RESTIC_PASSWORD`. -/
theorem inline_password_only_in_env (backup_config : BackupConfig)
    (restic_config : ResticConfig) (dry_run verbose : Bool) :
    (∀ p : Option String,
      (buildBackupCommand backup_config { restic_config with password := p }
          dry_run verbose).args =
        (buildBackupCommand backup_config restic_config dry_run verbose).args) ∧
    (restic_config.password_command = none →
      ∀ password, restic_config.password = some password →
        (buildBackupCommand backup_config restic_config dry_run verbose).env =
          ("RESTIC_PASSWORD", password) ::
            (match restic_config.ssh_command with
              | some ssh_cmd => [("RESTIC_SSH_COMMAND", ssh_cmd)]
              | none => [])) := by
  constructor
  · intro p
    rw [buildBackupCommand_args, buildBackupCommand_args]
  · intro hpc password hpw
    rw [buildBackupCommand_env, hpc, hpw]
    rfl

theorem inline_password_only_in_env_witness :
    (buildBackupCommand ⟨"daily", "02:00", ["/home/user"], []⟩
        ⟨"/repo", none, none, some "hunter2"⟩ false false).env =
      [("RESTIC_PASSWORD", "hunter2")] := by
  have h := (inline_password_only_in_env ⟨"daily", "02:00", ["/home/user"], []⟩
    ⟨"/repo", none, none, some "hunter2"⟩ false false).2 rfl "hunter2" rfl
  exact h

/-- Claim C2 (code bug): with an inline password configured and no
password command, the `cmd_string` built by `format!("{:?}", cmd)`
(main.rs line 213) — logged as `Restic command: ...` on startup
(line 214) and printed as `Command executed: ...` on failure
(line 392) — contains the secret, because the `Debug` rendering of
`std::process::Command` includes the environment overrides, here
`RESTIC_PASSWORD="hunter2"`.  This contradicts the specified
behavior that the secret never appears in logs or diagnostics. -/
theorem cmd_log_line_leaks_inline_password :
    strContainsSub
      (resticCommandLogLine (buildBackupCommand
        ⟨"daily", "02:00", ["/home/user"], []⟩
        ⟨"/repo", none, none, some "hunter2"⟩ false false))
      "hunter2" = true := rfl

/-- Claim C3: the built argument vector is exactly, in order:
`backup`, `--repo <repository>`, `--password-command <cmd>` (only if
set), `--verbose` (only if verbose), each backup directory in
configured order, `--exclude <path>` pairs in configured order,
`--dry-run` (only if dry-run); and it is independent of `frequency`,
`time`, `ssh_command` and the inline password (`logging` is not even
an input of the builder). -/
theorem backup_args_exact_order (backup_config : BackupConfig)
    (restic_config : ResticConfig) (dry_run verbose : Bool) :
    (buildBackupCommand backup_config restic_config dry_run verbose).args =
      ["backup", "--repo", restic_config.repository]
        ++ (match restic_config.password_command with
            | some password_cmd => ["--password-command", password_cmd]
            | none => [])
        ++ (if verbose then ["--verbose"] else [])
        ++ backup_config.directories
        ++ backup_config.exclude.flatMap (fun e => ["--exclude", e])
        ++ (if dry_run then ["--dry-run"] else []) ∧
    (∀ frequency time ssh_cmd password,
      (buildBackupCommand { backup_config with frequency := frequency, time := time }
          { restic_config with ssh_command := ssh_cmd, password := password }
          dry_run verbose).args =
        (buildBackupCommand backup_config restic_config dry_run verbose).args) := by
  refine ⟨buildBackupCommand_args backup_config restic_config dry_run verbose, ?_⟩
  intro frequency time ssh_cmd password
  rw [buildBackupCommand_args, buildBackupCommand_args]

/-- Claim C4: when `password_command` is set, no `RESTIC_PASSWORD`
environment entry is produced, even if the inline password is also
set; this holds for the backup invocation and for the snapshots
invocation. -/
theorem password_command_suppresses_password_env (backup_config : BackupConfig)
    (restic_config : ResticConfig) (dry_run verbose : Bool) (password_cmd : String)
    (h : restic_config.password_command = some password_cmd) :
    (∀ kv ∈ (buildBackupCommand backup_config restic_config dry_run verbose).env,
      kv.1 ≠ "RESTIC_PASSWORD") ∧
    (∀ kv ∈ (buildSnapshotsCommand restic_config).env, kv.1 ≠ "RESTIC_PASSWORD") := by
  constructor
  · rw [buildBackupCommand_env, h]
    cases restic_config.ssh_command <;> simp
  · rw [buildSnapshotsCommand_env, h]
    cases restic_config.ssh_command <;> simp

theorem password_command_suppresses_password_env_witness :
    (∀ kv ∈ (buildBackupCommand ⟨"daily", "02:00", ["/home/user"], []⟩
        ⟨"/repo", some "ssh -i k", some "cat /pw", some "hunter2"⟩ false false).env,
      kv.1 ≠ "RESTIC_PASSWORD") ∧
    (∀ kv ∈ (buildSnapshotsCommand
        ⟨"/repo", some "ssh -i k", some "cat /pw", some "hunter2"⟩).env,
      kv.1 ≠ "RESTIC_PASSWORD") :=
  password_command_suppresses_password_env ⟨"daily", "02:00", ["/home/user"], []⟩
    ⟨"/repo", some "ssh -i k", some "cat /pw", some "hunter2"⟩ false false "cat /pw" rfl

/-- Claim C5: a failing exit status whose stderr, lowercased, contains
any of the three repository phrases is classified as
`repositoryUninitialized` (so not as `genericFailure`), and the
repository-initialization remediation is emitted. -/
theorem repo_error_classified_uninitialized (dry_run : Bool) (stderr : String)
    (h : strContainsSub (lowerString stderr) "unable to open config file" = true ∨
      strContainsSub (lowerString stderr) "is there a repository" = true ∨
      strContainsSub (lowerString stderr) "repository not found" = true) :
    classify_result false dry_run stderr = .repositoryUninitialized ∧
    classify_result false dry_run stderr ≠ .genericFailure ∧
    (failure_hints stderr).repoSuggestion = true := by
  have hrepo : is_repo_error stderr = true := by
    unfold is_repo_error
    rcases h with h | h | h <;> simp [h]
  refine ⟨?_, ?_, ?_⟩
  · simp [classify_result, hrepo]
  · simp [classify_result, hrepo]
  · simp [failure_hints, hrepo]

theorem repo_error_classified_uninitialized_witness :
    classify_result false false "Fatal: REPOSITORY NOT FOUND at /backups" =
      .repositoryUninitialized ∧
    classify_result false false "Fatal: REPOSITORY NOT FOUND at /backups" ≠
      .genericFailure ∧
    (failure_hints "Fatal: REPOSITORY NOT FOUND at /backups").repoSuggestion = true :=
  repo_error_classified_uninitialized false "Fatal: REPOSITORY NOT FOUND at /backups"
    (Or.inr (Or.inr (by decide)))

/-- Claim C6: `parse_size "10MB" = 10485760`, `parse_size "5KB" = 5120`,
`parse_size "1GB" = 1073741824`, `parse_size "10XB"` is the format
error, and parsing is case-insensitive: for every string, parsing its
uppercased form gives the same result, so `"10mb"` parses identically
to `"10MB"`. -/
theorem parse_size_examples_and_case_insensitive :
    parse_size "10MB" = .ok 10485760 ∧
    parse_size "5KB" = .ok 5120 ∧
    parse_size "1GB" = .ok 1073741824 ∧
    parse_size "10XB" = .error "Invalid size format. Use MB, KB, or GB" ∧
    (∀ s : String, parse_size (upperString s) = parse_size s) ∧
    parse_size "10mb" = parse_size "10MB" := by
  refine ⟨rfl, rfl, rfl, rfl, ?_, rfl⟩
  intro s
  have h1 : (upperString s).data = s.data.map asciiUpper := rfl
  simp only [parse_size, parseSizeChars, h1, trimChars_map_asciiUpper, map_asciiUpper_idem]

/-- Claim C7: a configuration-update request whose body does not parse
as a configuration gets status 400, leaves the in-memory configuration
and the on-disk file unchanged, and performs no write effect; a valid
request performs the file write before the in-memory swap. -/
theorem invalid_yaml_update_rejected_unchanged (parseYaml : String → Option Config)
    (st : ServerState) (yaml : String) :
    (parseYaml yaml = none → update_config_yaml parseYaml st yaml = (st, 400, [])) ∧
    (∀ new_config, parseYaml yaml = some new_config →
      update_config_yaml parseYaml st yaml =
        ({ memory := new_config, file := yaml }, 200,
          [.fileWrite yaml, .memorySwap new_config])) := by
  constructor
  · intro h
    simp [update_config_yaml, h]
  · intro new_config h
    simp [update_config_yaml, h]

theorem invalid_yaml_update_rejected_unchanged_witness :
    update_config_yaml (fun _ => none)
      ⟨⟨⟨"daily", "02:00", [], []⟩, ⟨"/logs", "10MB"⟩, ⟨"/repo", none, none, none⟩⟩,
        "old: yaml"⟩ "backup: [" =
    (⟨⟨⟨"daily", "02:00", [], []⟩, ⟨"/logs", "10MB"⟩, ⟨"/repo", none, none, none⟩⟩,
        "old: yaml"⟩, 400, []) :=
  (invalid_yaml_update_rejected_unchanged (fun _ => none)
    ⟨⟨⟨"daily", "02:00", [], []⟩, ⟨"/logs", "10MB"⟩, ⟨"/repo", none, none, none⟩⟩,
      "old: yaml"⟩ "backup: [").1 rfl

/-- Claim C8: the `GET /api/config` response exposes `ssh_command`,
`password_command` and `password` only as presence booleans: any two
configurations that agree on everything except the values of those
three fields (while agreeing on their presence) produce identical
responses. -/
theorem get_config_redacts_secrets (c1 c2 : Config)
    (hb : c1.backup = c2.backup) (hl : c1.logging = c2.logging)
    (hr : c1.restic.repository = c2.restic.repository)
    (hs : c1.restic.ssh_command.isSome = c2.restic.ssh_command.isSome)
    (hpc : c1.restic.password_command.isSome = c2.restic.password_command.isSome)
    (hp : c1.restic.password.isSome = c2.restic.password.isSome) :
    get_config c1 = get_config c2 := by
  simp [get_config, hb, hl, hr, hs, hpc, hp]

theorem get_config_redacts_secrets_witness :
    get_config ⟨⟨"daily", "02:00", ["/home/user"], []⟩, ⟨"/logs", "10MB"⟩,
        ⟨"/repo", some "ssh -A", some "cat /pwA", some "secretA"⟩⟩ =
      get_config ⟨⟨"daily", "02:00", ["/home/user"], []⟩, ⟨"/logs", "10MB"⟩,
        ⟨"/repo", some "ssh -B", some "cat /pwB", some "secretB"⟩⟩ :=
  get_config_redacts_secrets
    ⟨⟨"daily", "02:00", ["/home/user"], []⟩, ⟨"/logs", "10MB"⟩,
      ⟨"/repo", some "ssh -A", some "cat /pwA", some "secretA"⟩⟩
    ⟨⟨"daily", "02:00", ["/home/user"], []⟩, ⟨"/logs", "10MB"⟩,
      ⟨"/repo", some "ssh -B", some "cat /pwB", some "secretB"⟩⟩
    rfl rfl rfl rfl rfl rfl

/-- Claim C9: every backup launched through `POST /api/backup/trigger`
invokes the builder with `verbose = true` unconditionally (the request
body only chooses `dry_run`), so the argument list of every
web-triggered invocation contains `--verbose`. -/
theorem web_trigger_always_verbose (config : Config) (payload : BackupRequest) :
    trigger_backup config payload =
      buildBackupCommand config.backup config.restic (payload.dry_run.getD false) true ∧
    "--verbose" ∈ (trigger_backup config payload).args := by
  refine ⟨rfl, ?_⟩
  have h := buildBackupCommand_args config.backup config.restic
    (payload.dry_run.getD false) true
  simp only [trigger_backup]
  rw [h]
  simp

/-- Claim C10 counterexample: the input `"18446744073709551616KB"`,
whose numeric part is `u64::MAX + 1`, is not accepted by `parse_size`;
it is rejected by the `u64` integer parse with an overflow error,
contradicting the claim that such inputs are "still accepted rather
than reported as a format error". -/
theorem parse_size_overflow_number_is_rejected :
    parse_size "18446744073709551616KB" =
      .error "number too large to fit in target type" := rfl

/-- Claim C10 (amended): for every accepted size string (digits
followed by `KB`, `MB` or `GB`), the returned value is the parsed
number multiplied by 1024 once, twice or three times in wrapping
`u64` arithmetic — there is no upper bound on the mathematical byte
count, which silently wraps modulo `2^64` instead of being rejected
(e.g. `"18446744073709551615KB"` is accepted and yields
18446744073709550592, not the mathematical product); only a numeric
part exceeding `u64::MAX` itself is rejected, at the integer-parsing
step. -/
theorem parse_size_wrapping_u64 (ds : List Char) (h1 : ds ≠ [])
    (h2 : ds.all isDigitChar = true) (h3 : digitsToNat ds < U64SIZE) :
    parseSizeChars (ds ++ ['K', 'B']) = .ok (u64mul (digitsToNat ds) 1024) ∧
    parseSizeChars (ds ++ ['M', 'B']) =
      .ok (u64mul (u64mul (digitsToNat ds) 1024) 1024) ∧
    parseSizeChars (ds ++ ['G', 'B']) =
      .ok (u64mul (u64mul (u64mul (digitsToNat ds) 1024) 1024) 1024) ∧
    parse_size "18446744073709551615KB" = .ok 18446744073709550592 ∧
    (18446744073709550592 : Nat) ≠ 18446744073709551615 * 1024 :=
  ⟨parseSizeChars_digits_KB ds h1 h2 h3, parseSizeChars_digits_MB ds h1 h2 h3,
    parseSizeChars_digits_GB ds h1 h2 h3, rfl, by omega⟩

theorem parse_size_wrapping_u64_witness :
    parseSizeChars (['7'] ++ ['K', 'B']) = .ok (u64mul (digitsToNat ['7']) 1024) ∧
    parseSizeChars (['7'] ++ ['M', 'B']) =
      .ok (u64mul (u64mul (digitsToNat ['7']) 1024) 1024) ∧
    parseSizeChars (['7'] ++ ['G', 'B']) =
      .ok (u64mul (u64mul (u64mul (digitsToNat ['7']) 1024) 1024) 1024) ∧
    parse_size "18446744073709551615KB" = .ok 18446744073709550592 ∧
    (18446744073709550592 : Nat) ≠ 18446744073709551615 * 1024 :=
  parse_size_wrapping_u64 ['7'] (by decide) (by decide) (by decide)
